import Mathlib

/-!
Shallow embedding of the windowing-toolkit core of `src/window.c`
(weston demo clients).  Pure functions over an explicit window / input /
display state mirror the C functions named after them; handler callbacks
supplied by client code are opaque, so each call through a handler pointer
is recorded as an event in a trace.  A call through a NULL handler pointer
(undefined behaviour in C) is recorded as the event `Ev.nullDeref`.
-/

namespace WestonClients

/-- struct rectangle (window.h): x, y, width, height as C int32. -/
structure Rect where
  x : Int
  y : Int
  width : Int
  height : Int
deriving Repr, DecidableEq

/-- Window type tag (window.c enum TYPE_TOPLEVEL, TYPE_FULLSCREEN,
TYPE_TRANSIENT, TYPE_CUSTOM). -/
inductive WType
  | toplevel
  | fullscreen
  | transient
  | custom
deriving Repr, DecidableEq

/-- Observable side effects of the toolkit code.  Each constructor stands
for one protocol request, handler invocation, reported error or undefined
behaviour in the corresponding C statement. -/
inductive Ev
  | attach (buf : Nat) (dx dy : Int)
  | damage (width height : Int)
  | bufferDamage (buf : Nat)
  | destroySurface (buf : Nat)
  | resizeCall (width height : Int)
  | redrawCall
  | keyCall (key sym : Nat) (state : Bool)
  | buttonCall (button : Nat) (state : Bool)
  | motionCall
  | itemFocusCall (item : Option Nat)
  | shellMove
  | shellResize (location : Nat)
  | errorReport
  | exitProcess
  | nullDeref
deriving Repr, DecidableEq

/-- struct item: a hit-testable rectangle.  The opaque `user_data` pointer
is represented by a numeric identity. -/
structure Item where
  id : Nat
  allocation : Rect
deriving Repr, DecidableEq

/-- struct window (window.c), restricted to the fields the verified
operations read or write.  Cairo surfaces are opaque tokens (`Nat` ids);
each handler function pointer is represented by a registration flag, with
actual handler calls recorded in `events`.  `displayDeferred` is the owning
display's deferred-task list as seen through this window (task ids, head =
next task `display_run` would pop), and `events` is the accumulated trace. -/
structure Window where
  allocation : Rect
  savedAllocation : Rect
  serverAllocation : Rect
  resizeEdges : Nat
  margin : Int
  wtype : WType
  decoration : Bool
  redrawScheduled : Bool
  cairoSurface : Option Nat
  pendingSurface : Option Nat
  items : List Item
  focusItem : Option Nat
  itemGrabButton : Nat
  keyboardDeviceIsInput : Bool
  hasResizeHandler : Bool
  hasRedrawHandler : Bool
  hasKeyHandler : Bool
  hasButtonHandler : Bool
  hasMotionHandler : Bool
  hasItemFocusHandler : Bool
  displayDeferred : List Nat
  events : List Ev
deriving Repr, DecidableEq

/-- struct input (window.c), restricted to the fields the verified
operations use. -/
structure Input where
  x : Int
  y : Int
  sx : Int
  sy : Int
  modifiers : Nat
deriving Repr, DecidableEq

/-- Append one observable event to the window's trace. -/
def emit (w : Window) (e : Ev) : Window :=
  { w with events := w.events ++ [e] }

/- enum window_location (window.c lines 164-178). -/

def WINDOW_INTERIOR : Nat := 0
def WINDOW_RESIZING_TOP : Nat := 1
def WINDOW_RESIZING_BOTTOM : Nat := 2
def WINDOW_RESIZING_LEFT : Nat := 4
def WINDOW_RESIZING_TOP_LEFT : Nat := 5
def WINDOW_RESIZING_BOTTOM_LEFT : Nat := 6
def WINDOW_RESIZING_RIGHT : Nat := 8
def WINDOW_RESIZING_TOP_RIGHT : Nat := 9
def WINDOW_RESIZING_BOTTOM_RIGHT : Nat := 10
def WINDOW_RESIZING_MASK : Nat := 15
def WINDOW_EXTERIOR : Nat := 16
def WINDOW_TITLEBAR : Nat := 17
def WINDOW_CLIENT_AREA : Nat := 18

/-- BTN_LEFT from linux/input.h. -/
def BTN_LEFT : Nat := 272

/-- XKB_COMMON_SHIFT_MASK from X11/extensions/XKBcommon.h (bit 0). -/
def XKB_COMMON_SHIFT_MASK : Nat := 1

/-- window_create_internal (window.c lines 1689-1727): a freshly created
window.  `memset 0` zeroes every field, then allocation, margin = 16,
decoration = 1 are set; handler pointers start NULL and the item list
empty. -/
def window_create_internal (width height : Int) : Window :=
  { allocation := ⟨0, 0, width, height⟩
    savedAllocation := ⟨0, 0, width, height⟩
    serverAllocation := ⟨0, 0, 0, 0⟩
    resizeEdges := 0
    margin := 16
    wtype := WType.toplevel
    decoration := true
    redrawScheduled := false
    cairoSurface := none
    pendingSurface := none
    items := []
    focusItem := none
    itemGrabButton := 0
    keyboardDeviceIsInput := false
    hasResizeHandler := false
    hasRedrawHandler := false
    hasKeyHandler := false
    hasButtonHandler := false
    hasMotionHandler := false
    hasItemFocusHandler := false
    displayDeferred := []
    events := [] }

/-- window_get_resize_dx_dy (window.c lines 719-734): computes the attach
offset from the pending resize edges and clears `resize_edges`. -/
def window_get_resize_dx_dy (w : Window) : Window × Int × Int :=
  let dx := if w.resizeEdges &&& WINDOW_RESIZING_LEFT ≠ 0
            then w.serverAllocation.width - w.allocation.width else 0
  let dy := if w.resizeEdges &&& WINDOW_RESIZING_TOP ≠ 0
            then w.serverAllocation.height - w.allocation.height else 0
  ({ w with resizeEdges := 0 }, dx, dy)

/-- window_attach_surface (window.c lines 758-810), shared-memory /
EGL-image path (the `WINDOW_BUFFER_TYPE_SHM` and
`WINDOW_BUFFER_TYPE_EGL_IMAGE` cases of the switch): if a surface is
already pending release, return without attaching; otherwise move the
drawn surface to `pending_surface`, attach its buffer with the resize
offset, register the `free_surface` release callback and damage the full
window rectangle.  The `cairo_surface = NULL` case is unreachable: both
callers (`window_flush`, `free_surface`) call only when `cairo_surface`
is non-NULL. -/
def window_attach_surface (w0 : Window) : Window :=
  let r := window_get_resize_dx_dy w0
  let w := r.1
  if w.pendingSurface.isSome then w
  else
    match w.cairoSurface with
    | none => w
    | some s =>
      let w := { w with pendingSurface := some s
                        cairoSurface := none
                        serverAllocation := w.allocation }
      let w := emit w (Ev.attach s r.2.1 r.2.2)
      emit w (Ev.damage w.allocation.width w.allocation.height)

/-- free_surface (window.c lines 703-713): the compositor's release
callback.  Destroys the pending surface, clears the pending slot, and if a
newly drawn surface exists, immediately attaches it. -/
def free_surface (w : Window) : Window :=
  let w1 :=
    match w.pendingSurface with
    | some p => emit { w with pendingSurface := none } (Ev.destroySurface p)
    | none => { w with pendingSurface := none }
  if w1.cairoSurface.isSome then window_attach_surface w1 else w1

/-- window_flush (window.c lines 812-830): if a drawn surface exists,
damage its buffer and attach it. -/
def window_flush (w : Window) : Window :=
  match w.cairoSurface with
  | some s => window_attach_surface (emit w (Ev.bufferDamage s))
  | none => w

/-- window_set_surface (window.c lines 832-841): reference the new surface
(a refcount no-op here, safe for NULL), destroy the previously held drawn
surface if any, and store the new one. -/
def window_set_surface (w : Window) (surface : Option Nat) : Window :=
  let w1 :=
    match w.cairoSurface with
    | some old => emit w (Ev.destroySurface old)
    | none => w
  { w1 with cairoSurface := surface }

/-- Failure oracle for the three fallible system calls inside
display_create_shm_surface: mkstemp, ftruncate and mmap. -/
structure ShmEnv where
  mkstempOk : Bool
  ftruncateOk : Bool
  mmapOk : Bool
deriving Repr, DecidableEq

/-- display_create_shm_surface (window.c lines 466-527): create a
temp-file-backed pixel surface.  On mkstemp, ftruncate or mmap failure it
prints to stderr (`Ev.errorReport`) and returns NULL; it contains no call
to exit and schedules nothing.  On success it returns the new surface.
Returns the resulting surface option together with the emitted events. -/
def display_create_shm_surface (env : ShmEnv) (newSurface : Nat) :
    Option Nat × List Ev :=
  if !env.mkstempOk then (none, [Ev.errorReport])
  else if !env.ftruncateOk then (none, [Ev.errorReport])
  else if !env.mmapOk then (none, [Ev.errorReport])
  else (some newSurface, [])

/-- window_create_surface (window.c lines 871-908), shared-memory branch
(`WINDOW_BUFFER_TYPE_SHM`): allocate a fresh shm surface and install it via
window_set_surface (which destroys the previously drawn surface); the
trailing cairo_surface_destroy only drops the local reference. -/
def window_create_surface (env : ShmEnv) (newSurface : Nat) (w : Window) :
    Window :=
  let r := display_create_shm_surface env newSurface
  let w := { w with events := w.events ++ r.2 }
  window_set_surface w r.1

/-- The id used for a window's `redraw_task`. -/
def redrawTaskId : Nat := 0

/-- display_defer (window.c lines 2274-2278):
`wl_list_insert(&display->deferred_list, &task->link)` inserts the task
right after the list head (libwayland `wl_list_insert` semantics), i.e. it
prepends: the most recently deferred task is the first one `display_run`
will pop. -/
def display_defer (deferredList : List Nat) (task : Nat) : List Nat :=
  task :: deferredList

/-- The drain loop of display_run (window.c lines 2310-2315): repeatedly
take `deferred_list.next` (the head), unlink it and run it, until the list
is empty.  Returns the tasks in the order they are run. -/
def display_run_drain : List Nat → List Nat
  | [] => []
  | task :: rest => task :: display_run_drain rest

/-- idle_redraw (window.c lines 1521-1529): calls the redraw handler
through the stored pointer without a NULL check, then clears the
`redraw_scheduled` flag. -/
def idle_redraw (w : Window) : Window :=
  let w1 := if w.hasRedrawHandler then emit w Ev.redrawCall
            else emit w Ev.nullDeref
  { w1 with redrawScheduled := false }

/-- window_schedule_redraw (window.c lines 1531-1539): if no redraw is
scheduled yet, defer the window's redraw task and set the flag; otherwise
do nothing. -/
def window_schedule_redraw (w : Window) : Window :=
  if !w.redrawScheduled then
    { w with displayDeferred := display_defer w.displayDeferred redrawTaskId
             redrawScheduled := true }
  else w

/-- The grip width used by get_pointer_location (window.c line 1085). -/
def grip_size : Int := 8

/-- The `hlocation` classification chain of get_pointer_location
(window.c lines 1090-1099). -/
def hlocation (w : Window) (x : Int) : Nat :=
  if x < w.margin then WINDOW_EXTERIOR
  else if w.margin ≤ x ∧ x < w.margin + grip_size then WINDOW_RESIZING_LEFT
  else if x < w.allocation.width - w.margin - grip_size then WINDOW_INTERIOR
  else if x < w.allocation.width - w.margin then WINDOW_RESIZING_RIGHT
  else WINDOW_EXTERIOR

/-- The `vlocation` classification chain of get_pointer_location
(window.c lines 1101-1110). -/
def vlocation (w : Window) (y : Int) : Nat :=
  if y < w.margin then WINDOW_EXTERIOR
  else if w.margin ≤ y ∧ y < w.margin + grip_size then WINDOW_RESIZING_TOP
  else if y < w.allocation.height - w.margin - grip_size then WINDOW_INTERIOR
  else if y < w.allocation.height - w.margin then WINDOW_RESIZING_BOTTOM
  else WINDOW_EXTERIOR

/-- get_pointer_location (window.c lines 1081-1121). -/
def get_pointer_location (w : Window) (x y : Int) : Nat :=
  if !w.decoration then WINDOW_CLIENT_AREA
  else
    let location := vlocation w y ||| hlocation w x
    let location := if location &&& WINDOW_EXTERIOR ≠ 0 then WINDOW_EXTERIOR
                    else location
    if location = WINDOW_INTERIOR ∧ y < w.margin + 50 then WINDOW_TITLEBAR
    else if location = WINDOW_INTERIOR then WINDOW_CLIENT_AREA
    else location

/-- Pointwise rectangle membership used by window_find_item
(window.c lines 997-1000). -/
def rect_contains (r : Rect) (x y : Int) : Bool :=
  decide (r.x ≤ x ∧ x < r.x + r.width ∧ r.y ≤ y ∧ y < r.y + r.height)

/-- window_find_item (window.c lines 991-1006): linear scan of the item
list, first match wins. -/
def window_find_item (w : Window) (x y : Int) : Option Item :=
  w.items.find? (fun it => rect_contains it.allocation x y)

/-- window_set_focus_item (window.c lines 1181-1193): no-op when the focus
item is unchanged; otherwise store it and invoke the item-focus handler if
one is registered. -/
def window_set_focus_item (w : Window) (focus : Option Nat) : Window :=
  if focus = w.focusItem then w
  else
    let w := { w with focusItem := focus }
    if w.hasItemFocusHandler then emit w (Ev.itemFocusCall focus) else w

/-- window_handle_motion (window.c lines 1195-1221): update the device
coordinates; unless an item grab is active, re-resolve the focused item
via window_find_item; call the motion handler if registered.  The trailing
set_pointer_image call only updates the cursor image and invokes no
per-window handler, so it is not modelled. -/
def window_handle_motion (w : Window) (inp : Input) (x y sx sy : Int) :
    Window × Input :=
  let inp := { inp with x := x, y := y, sx := sx, sy := sy }
  let w :=
    if w.focusItem = none ∨ w.itemGrabButton = 0 then
      window_set_focus_item w ((window_find_item w sx sy).map Item.id)
    else w
  let w := if w.hasMotionHandler then emit w Ev.motionCall else w
  (w, inp)

/-- First statement of window_handle_button (window.c lines 1233-1234):
on a press with a focused item and no active grab, record this button as
the item grab button. -/
def button_grab_acquire (w : Window) (button : Nat) (state : Bool) :
    Window :=
  if w.focusItem.isSome ∧ w.itemGrabButton = 0 ∧ state then
    { w with itemGrabButton := button }
  else w

/-- The shell/handler dispatch of window_handle_button (window.c lines
1238-1271): on a left-button press with a shell bound, the title bar
starts a shell move, the eight resize zones start a shell resize, and only
the client area forwards to the button handler; every other event is
forwarded to the button handler (when registered). -/
def button_dispatch (hasShell : Bool) (w : Window) (location : Nat)
    (button : Nat) (state : Bool) : Window :=
  if hasShell ∧ button = BTN_LEFT ∧ state then
    if location = WINDOW_TITLEBAR then emit w Ev.shellMove
    else if location = WINDOW_RESIZING_TOP ∨
            location = WINDOW_RESIZING_BOTTOM ∨
            location = WINDOW_RESIZING_LEFT ∨
            location = WINDOW_RESIZING_RIGHT ∨
            location = WINDOW_RESIZING_TOP_LEFT ∨
            location = WINDOW_RESIZING_TOP_RIGHT ∨
            location = WINDOW_RESIZING_BOTTOM_LEFT ∨
            location = WINDOW_RESIZING_BOTTOM_RIGHT then
      emit w (Ev.shellResize location)
    else if location = WINDOW_CLIENT_AREA then
      (if w.hasButtonHandler then emit w (Ev.buttonCall button state) else w)
    else w
  else
    (if w.hasButtonHandler then emit w (Ev.buttonCall button state) else w)

/-- Last statement of window_handle_button (window.c lines 1273-1278):
releasing the grab button clears the grab and re-resolves the focused
item. -/
def button_grab_release (w : Window) (inp : Input) (button : Nat)
    (state : Bool) : Window :=
  if w.focusItem.isSome ∧ w.itemGrabButton = button ∧ !state then
    window_set_focus_item { w with itemGrabButton := 0 }
      ((window_find_item { w with itemGrabButton := 0 } inp.sx
          inp.sy).map Item.id)
  else w

/-- window_handle_button (window.c lines 1223-1279).  `hasShell` models
`window->display->shell != NULL`.  The three statements run in source
order: grab acquisition, pointer-location dispatch, grab release. -/
def window_handle_button (hasShell : Bool) (w : Window) (inp : Input)
    (button : Nat) (state : Bool) : Window :=
  let w := button_grab_acquire w button state
  let location := get_pointer_location w inp.sx inp.sy
  let w := button_dispatch hasShell w location button state
  button_grab_release w inp button state

/-- window_handle_key (window.c lines 1281-1309).  The active keymap is
abstracted by `modmap` (per-keycode modifier bits), `minKeyCode`
(`xkb->min_key_code`), `groupWidthGT1` (`XkbKeyGroupWidth(...) > 1`) and
`symEntry` (`XkbKeySymEntry`).  If this input is not the window's keyboard
device the event is dropped; otherwise the modifier mask is OR-ed with the
key's modifier bits on press and AND-ed with their 32-bit complement on
release, and the key handler is called if registered. -/
def window_handle_key (modmap : Nat → Nat) (minKeyCode : Nat)
    (groupWidthGT1 : Nat → Bool) (symEntry : Nat → Nat → Nat)
    (w : Window) (inp : Input) (key : Nat) (state : Bool) : Window × Input :=
  let code := key + minKeyCode
  if !w.keyboardDeviceIsInput then (w, inp)
  else
    let level : Nat :=
      if inp.modifiers &&& XKB_COMMON_SHIFT_MASK ≠ 0 ∧ groupWidthGT1 code
      then 1 else 0
    let sym := symEntry code level
    let inp :=
      if state then { inp with modifiers := inp.modifiers ||| modmap code }
      else { inp with
               modifiers := inp.modifiers &&& (2 ^ 32 - 1 ^^^ modmap code) }
    let w := if w.hasKeyHandler then emit w (Ev.keyCall key sym state) else w
    (w, inp)

/-- handle_configure (window.c lines 1446-1476): ignore configure events
with non-positive dimensions; otherwise record the resize edges and either
call the resize handler with the decoration-adjusted child size, or adopt
the size directly and schedule a redraw when a redraw handler exists. -/
def handle_configure (w : Window) (edges : Nat) (width height : Int) :
    Window :=
  if width ≤ 0 ∨ height ≤ 0 then w
  else
    let w := { w with resizeEdges := edges }
    if w.hasResizeHandler then
      emit w (Ev.resizeCall (width - 20 - w.margin * 2)
                            (height - 60 - w.margin * 2))
    else
      let w := { w with allocation :=
                   { w.allocation with width := width, height := height } }
      if w.hasRedrawHandler then window_schedule_redraw w else w

/-- window_set_child_size (window.c lines 1505-1519). -/
def window_set_child_size (w : Window) (width height : Int) : Window :=
  if w.decoration then
    { w with allocation := ⟨20 + w.margin, 60 + w.margin,
                            width + 20 + w.margin * 2,
                            height + 60 + w.margin * 2⟩ }
  else
    { w with allocation := ⟨0, 0, width, height⟩ }

/-- window_set_fullscreen (window.c lines 1547-1569), parametrised by the
output rectangle (`display->screen_allocation`) and by the client's resize
handler behaviour `handler`.  A no-op when already in the requested state;
otherwise switches the type/decoration, saves or uses the saved
allocation, and calls the resize handler through the stored pointer
without a NULL check (hence `Ev.nullDeref` when none is registered). -/
def window_set_fullscreen (screen : Rect)
    (handler : Window → Int → Int → Window)
    (w : Window) (fullscreen : Bool) : Window :=
  if (w.wtype == WType.fullscreen) = fullscreen then w
  else
    let r : Window × Int × Int :=
      if fullscreen then
        ({ w with wtype := WType.fullscreen
                  savedAllocation := w.allocation
                  decoration := false },
         screen.width, screen.height)
      else
        ({ w with wtype := WType.toplevel, decoration := true },
         w.savedAllocation.width - 20 - w.margin * 2,
         w.savedAllocation.height - 60 - w.margin * 2)
    if r.1.hasResizeHandler then
      handler (emit r.1 (Ev.resizeCall r.2.1 r.2.2)) r.2.1 r.2.2
    else emit r.1 Ev.nullDeref

/-- The resize handler installed by the demo clients: adopt the requested
child size (window_set_child_size) and request a redraw
(window_schedule_redraw). -/
def child_size_resize_handler (w : Window) (width height : Int) : Window :=
  window_schedule_redraw (window_set_child_size w width height)

/-! Concrete fixtures used by witnesses and counterexamples. -/

/-- A 500x400 decorated top-level window as window_create_internal makes
it. -/
def wBase : Window := window_create_internal 500 400

/-- A sample output rectangle (display->screen_allocation). -/
def screen0 : Rect := ⟨0, 0, 1024, 768⟩

/-- An input device with all coordinates and modifiers zero. -/
def inpBase : Input := ⟨0, 0, 0, 0, 0⟩

/-- A keymap whose every keycode carries modifier bit 0 (e.g. Shift). -/
def modmap1 : Nat → Nat := fun _ => 1

/-- A keymap with no modifier keys at all. -/
def modmap0 : Nat → Nat := fun _ => 0

/-- A key-group-width predicate that is constantly false. -/
def groupWidth0 : Nat → Bool := fun _ => false

/-- A keysym table mapping every entry to symbol 0. -/
def symEntry0 : Nat → Nat → Nat := fun _ _ => 0

/-! Helper lemmas shared across the claim theorems. -/

/-- The number of attach requests in a trace. -/
def countAttach (evs : List Ev) : Nat :=
  evs.countP fun e => match e with | Ev.attach _ _ _ => true | _ => false

/-- The number of item-focus handler invocations in a trace. -/
def countItemFocus (evs : List Ev) : Nat :=
  evs.countP fun e => match e with | Ev.itemFocusCall _ => true | _ => false

theorem display_run_drain_eq (l : List Nat) : display_run_drain l = l := by
  induction l with
  | nil => rfl
  | cons t rest ih => simp [display_run_drain, ih]

theorem foldl_display_defer (ts acc : List Nat) :
    ts.foldl display_defer acc = ts.reverse ++ acc := by
  induction ts generalizing acc with
  | nil => simp
  | cons t rest ih => simp [display_defer, ih]

theorem window_set_surface_fields (w : Window) (s : Option Nat) :
    (window_set_surface w s).cairoSurface = s ∧
    (window_set_surface w s).pendingSurface = w.pendingSurface ∧
    (window_set_surface w s).displayDeferred = w.displayDeferred ∧
    (window_set_surface w s).redrawScheduled = w.redrawScheduled := by
  unfold window_set_surface
  cases h : w.cairoSurface <;> simp [h, emit]

theorem window_flush_of_none (w : Window) (h : w.cairoSurface = none) :
    window_flush w = w := by
  unfold window_flush
  rw [h]

theorem schedule_redraw_scheduled (w : Window) :
    (window_schedule_redraw w).redrawScheduled = true := by
  unfold window_schedule_redraw
  cases h : w.redrawScheduled <;> simp [h]

theorem schedule_redraw_of_scheduled (w : Window)
    (h : w.redrawScheduled = true) : window_schedule_redraw w = w := by
  unfold window_schedule_redraw
  simp [h]

theorem idle_redraw_fields (w : Window) :
    (idle_redraw w).redrawScheduled = false ∧
    (idle_redraw w).displayDeferred = w.displayDeferred := by
  unfold idle_redraw
  cases h : w.hasRedrawHandler <;> simp [h, emit]

/-- Claim C3 counterexample: deferring task 10 and then task 20 makes
display_run run 20 before 10 — the queue is not drained first-deferred,
first-run. -/
theorem display_defer_drain_counterexample :
    display_run_drain (display_defer (display_defer [] 10) 20) = [20, 10] ∧
    ([20, 10] : List Nat) ≠ [10, 20] := by
  decide

/-- Claim C3 (amended): the deferred-task queue is drained in LIFO order.
display_defer inserts at the head of the deferred list
(`wl_list_insert(&display->deferred_list, ...)`), and display_run pops
from the head until the queue is empty, so a batch of tasks deferred
during one dispatch batch runs in the reverse of the order in which
display_defer was called. -/
theorem display_run_drain_lifo (ts : List Nat) :
    display_run_drain (ts.foldl display_defer []) = ts.reverse := by
  simp [display_run_drain_eq, foldl_display_defer]

/-- Claim C10: handle_configure invoked with non-positive width or height
returns without changing any window state: resize_edges is untouched, the
allocation is unchanged, and no handler call or redraw is scheduled (the
entire window state, trace and deferred queue included, is unchanged). -/
theorem handle_configure_ignores_nonpositive (w : Window) (edges : Nat)
    (width height : Int) (h : width ≤ 0 ∨ height ≤ 0) :
    handle_configure w edges width height = w := by
  unfold handle_configure
  rw [if_pos h]

/-- Witness for handle_configure_ignores_nonpositive at width 0. -/
theorem handle_configure_ignores_nonpositive_witness :
    ((0 : Int) ≤ 0 ∨ (100 : Int) ≤ 0) ∧
    handle_configure wBase 3 0 100 = wBase :=
  ⟨Or.inl le_rfl,
   handle_configure_ignores_nonpositive wBase 3 0 100 (Or.inl le_rfl)⟩

/-- Claim C9: if mkstemp, ftruncate or mmap fails,
display_create_shm_surface reports the error and returns a null surface;
the process does not exit, nothing is scheduled, and the window's pending
(displayed) surface is untouched: window_create_surface leaves the
deferred queue, redraw flag and pending surface unchanged (its drawn
surface becomes NULL), and a subsequent window_flush is a no-op, so no new
attach is issued until the next successful redraw. -/
theorem shm_failure_nonfatal (env : ShmEnv)
    (h : env.mkstempOk = false ∨ env.ftruncateOk = false ∨ env.mmapOk = false)
    (newS : Nat) (w : Window) :
    (display_create_shm_surface env newS).1 = none ∧
    (display_create_shm_surface env newS).2 = [Ev.errorReport] ∧
    Ev.exitProcess ∉ (display_create_shm_surface env newS).2 ∧
    (window_create_surface env newS w).displayDeferred = w.displayDeferred ∧
    (window_create_surface env newS w).redrawScheduled = w.redrawScheduled ∧
    (window_create_surface env newS w).pendingSurface = w.pendingSurface ∧
    (window_create_surface env newS w).cairoSurface = none ∧
    window_flush (window_create_surface env newS w) =
      window_create_surface env newS w := by
  have hfail :
      display_create_shm_surface env newS = (none, [Ev.errorReport]) := by
    unfold display_create_shm_surface
    rcases h with h | h | h
    · simp [h]
    · cases hm : env.mkstempOk <;> simp [h, hm]
    · cases hm : env.mkstempOk <;> cases hf : env.ftruncateOk <;>
        simp [h, hm, hf]
  have hchain :
      window_create_surface env newS w =
        window_set_surface { w with events := w.events ++ [Ev.errorReport] }
          none := by
    unfold window_create_surface
    rw [hfail]
  have hfields := window_set_surface_fields
    { w with events := w.events ++ [Ev.errorReport] } none
  refine ⟨by rw [hfail], by rw [hfail], by rw [hfail]; decide,
    ?_, ?_, ?_, ?_, ?_⟩
  · rw [hchain]; exact hfields.2.2.1
  · rw [hchain]; exact hfields.2.2.2
  · rw [hchain]; exact hfields.2.1
  · rw [hchain]; exact hfields.1
  · exact window_flush_of_none _ (by rw [hchain]; exact hfields.1)

/-- Witness for shm_failure_nonfatal with a failing mkstemp. -/
theorem shm_failure_nonfatal_witness :
    ((⟨false, true, true⟩ : ShmEnv).mkstempOk = false ∨
       (⟨false, true, true⟩ : ShmEnv).ftruncateOk = false ∨
       (⟨false, true, true⟩ : ShmEnv).mmapOk = false) ∧
    (display_create_shm_surface ⟨false, true, true⟩ 7).1 = none :=
  ⟨Or.inl rfl, (shm_failure_nonfatal ⟨false, true, true⟩ (Or.inl rfl)
     7 wBase).1⟩

/-- Claim C2: window_schedule_redraw is idempotent while a redraw is
pending: a second call before idle_redraw runs is the identity; from an
unscheduled state the task is enqueued exactly once no matter how many
calls are made; after idle_redraw runs the flag is cleared and its queue
untouched, so a subsequent call enqueues again. -/
theorem window_schedule_redraw_idempotent (w : Window) :
    window_schedule_redraw (window_schedule_redraw w) =
      window_schedule_redraw w ∧
    (window_schedule_redraw w).redrawScheduled = true ∧
    (w.redrawScheduled = false →
       (window_schedule_redraw w).displayDeferred =
         redrawTaskId :: w.displayDeferred) ∧
    (w.redrawScheduled = false → redrawTaskId ∉ w.displayDeferred →
       ∀ n, ((window_schedule_redraw^[n + 1]) w).displayDeferred.count
              redrawTaskId = 1) ∧
    (idle_redraw w).redrawScheduled = false ∧
    (idle_redraw w).displayDeferred = w.displayDeferred ∧
    (window_schedule_redraw (idle_redraw w)).displayDeferred =
      redrawTaskId :: (idle_redraw w).displayDeferred := by
  have hidem : window_schedule_redraw (window_schedule_redraw w) =
      window_schedule_redraw w :=
    schedule_redraw_of_scheduled _ (schedule_redraw_scheduled w)
  have hone : w.redrawScheduled = false →
      (window_schedule_redraw w).displayDeferred =
        redrawTaskId :: w.displayDeferred := by
    intro h
    unfold window_schedule_redraw display_defer
    simp [h]
  refine ⟨hidem, schedule_redraw_scheduled w, hone, ?_,
    (idle_redraw_fields w).1, (idle_redraw_fields w).2, ?_⟩
  · intro h hmem n
    have hiter : ∀ m, (window_schedule_redraw^[m + 1]) w =
        window_schedule_redraw w := by
      intro m
      induction m with
      | zero => simp
      | succ k ih =>
        rw [Function.iterate_succ_apply', ih, hidem]
    rw [hiter n, hone h]
    simp [List.count_cons, List.count_eq_zero.2 hmem]
  · have hflag := (idle_redraw_fields w).1
    unfold window_schedule_redraw display_defer
    simp [hflag]

/-- Witness for window_schedule_redraw_idempotent on a fresh window. -/
theorem window_schedule_redraw_idempotent_witness :
    wBase.redrawScheduled = false ∧
    (window_schedule_redraw wBase).displayDeferred =
      redrawTaskId :: wBase.displayDeferred :=
  ⟨rfl, (window_schedule_redraw_idempotent wBase).2.2.1 rfl⟩

/-- Claim C1: at most one buffer commit is outstanding per window.  If
window_attach_surface (shared-memory / GPU-image path) runs while a
surface is still pending release, no attach is issued and the pending and
drawn surfaces are unchanged; when the release callback free_surface runs,
the pending surface is destroyed and, if a newly drawn surface exists,
exactly one new attach is issued immediately (and none otherwise). -/
theorem single_outstanding_commit (w : Window) (p : Nat)
    (hp : w.pendingSurface = some p) :
    ((window_attach_surface w).pendingSurface = some p ∧
     (window_attach_surface w).cairoSurface = w.cairoSurface ∧
     (window_attach_surface w).events = w.events) ∧
    (∀ c, w.cairoSurface = some c →
       (free_surface w).pendingSurface = some c ∧
       (free_surface w).cairoSurface = none ∧
       Ev.destroySurface p ∈ (free_surface w).events ∧
       countAttach (free_surface w).events = countAttach w.events + 1) ∧
    (w.cairoSurface = none →
       (free_surface w).pendingSurface = none ∧
       Ev.destroySurface p ∈ (free_surface w).events ∧
       countAttach (free_surface w).events = countAttach w.events) := by
  refine ⟨?_, ?_, ?_⟩
  · unfold window_attach_surface window_get_resize_dx_dy
    simp [hp]
  · intro c hc
    unfold free_surface
    rw [hp]
    unfold window_attach_surface window_get_resize_dx_dy
    simp [emit, hc, countAttach, List.countP_append]
  · intro hc
    unfold free_surface
    rw [hp]
    simp [emit, hc, countAttach, List.countP_append]

/-- A window with surface 1 pending release and surface 2 freshly drawn. -/
def wPend : Window :=
  { wBase with pendingSurface := some 1, cairoSurface := some 2 }

/-- Witness for single_outstanding_commit: releasing the pending surface
of wPend immediately attaches the drawn surface. -/
theorem single_outstanding_commit_witness :
    wPend.pendingSurface = some 1 ∧ wPend.cairoSurface = some 2 ∧
    (free_surface wPend).pendingSurface = some 2 ∧
    (window_attach_surface wPend).events = wPend.events :=
  ⟨rfl, rfl, ((single_outstanding_commit wPend 1 rfl).2.1 2 rfl).1,
   (single_outstanding_commit wPend 1 rfl).1.2.2⟩

/-! Helper lemmas for claim C4: the checked handler-invocation sites never
produce a NULL-handler dereference. -/

theorem no_nullDeref_set_focus_item (w : Window) (focus : Option Nat)
    (h : Ev.nullDeref ∉ w.events) :
    Ev.nullDeref ∉ (window_set_focus_item w focus).events := by
  simp only [window_set_focus_item, emit]
  split_ifs <;> simp_all

theorem no_nullDeref_handle_configure (w : Window) (edges : Nat)
    (width height : Int) (h : Ev.nullDeref ∉ w.events) :
    Ev.nullDeref ∉ (handle_configure w edges width height).events := by
  simp only [handle_configure, window_schedule_redraw, emit]
  split_ifs <;> simp_all

theorem no_nullDeref_motion (w : Window) (inp : Input) (x y sx sy : Int)
    (h : Ev.nullDeref ∉ w.events) :
    Ev.nullDeref ∉ (window_handle_motion w inp x y sx sy).1.events := by
  simp only [window_handle_motion, window_set_focus_item, emit]
  split_ifs <;> simp_all

theorem no_nullDeref_button (hasShell : Bool) (w : Window) (inp : Input)
    (button : Nat) (state : Bool) (h : Ev.nullDeref ∉ w.events) :
    Ev.nullDeref ∉ (window_handle_button hasShell w inp button state).events
    := by
  have h1 : Ev.nullDeref ∉ (button_grab_acquire w button state).events := by
    unfold button_grab_acquire
    split_ifs <;> exact h
  have h2 : ∀ (v : Window) (loc : Nat), Ev.nullDeref ∉ v.events →
      Ev.nullDeref ∉ (button_dispatch hasShell v loc button state).events
      := by
    intro v loc hv
    simp only [button_dispatch, emit]
    split_ifs <;> simp_all
  have h3 : ∀ v : Window, Ev.nullDeref ∉ v.events →
      Ev.nullDeref ∉ (button_grab_release v inp button state).events := by
    intro v hv
    unfold button_grab_release
    split_ifs
    · exact no_nullDeref_set_focus_item _ _ hv
    · exact hv
  exact h3 _ (h2 _ _ h1)

theorem no_nullDeref_key (modmap : Nat → Nat) (minKeyCode : Nat)
    (gw : Nat → Bool) (se : Nat → Nat → Nat) (w : Window) (inp : Input)
    (key : Nat) (state : Bool) (h : Ev.nullDeref ∉ w.events) :
    Ev.nullDeref ∉
      (window_handle_key modmap minKeyCode gw se w inp key state).1.events
    := by
  simp only [window_handle_key, emit]
  split_ifs <;> simp_all

theorem no_nullDeref_schedule (w : Window) (h : Ev.nullDeref ∉ w.events) :
    Ev.nullDeref ∉ (window_schedule_redraw w).events := by
  simp only [window_schedule_redraw]
  split_ifs <;> simp_all

theorem no_nullDeref_idle (w : Window) (hred : w.hasRedrawHandler = true)
    (h : Ev.nullDeref ∉ w.events) :
    Ev.nullDeref ∉ (idle_redraw w).events := by
  simp only [idle_redraw, emit]
  simp_all

theorem no_nullDeref_fullscreen (screen : Rect) (w : Window) (st : Bool)
    (hres : w.hasResizeHandler = true) (h : Ev.nullDeref ∉ w.events) :
    Ev.nullDeref ∉
      (window_set_fullscreen screen child_size_resize_handler w st).events
    := by
  simp only [window_set_fullscreen, child_size_resize_handler,
    window_set_child_size, window_schedule_redraw, emit]
  split_ifs <;> simp_all

/-- Claim C4 counterexample: on a freshly created window (all handler
pointers NULL), window_set_fullscreen dereferences the NULL resize handler
and idle_redraw dereferences the NULL redraw handler — exactly the two
operations the claim names as safe. -/
theorem null_handler_deref_counterexample :
    wBase.hasResizeHandler = false ∧ wBase.hasRedrawHandler = false ∧
    Ev.nullDeref ∈
      (window_set_fullscreen screen0 child_size_resize_handler wBase
         true).events ∧
    Ev.nullDeref ∈ (idle_redraw wBase).events := by
  decide

/-- Claim C4 (amended): every per-window handler is optional at every
invocation site except two: handle_configure, window_set_focus_item,
window_handle_motion, window_handle_button, window_handle_key and
window_schedule_redraw invoke a handler only when it is non-null, for any
combination of registered handlers; window_set_fullscreen and idle_redraw
call the resize and redraw handlers unconditionally, so they avoid a NULL
dereference only when those handlers are registered. -/
theorem handlers_optional_amended (w : Window) (inp : Input) (edges : Nat)
    (cw ch x y sx sy : Int) (button key : Nat) (st : Bool)
    (modmap : Nat → Nat) (minKeyCode : Nat) (gw : Nat → Bool)
    (se : Nat → Nat → Nat) (hasShell : Bool) (screen : Rect)
    (focus : Option Nat) (hw : Ev.nullDeref ∉ w.events) :
    Ev.nullDeref ∉ (handle_configure w edges cw ch).events ∧
    Ev.nullDeref ∉ (window_set_focus_item w focus).events ∧
    Ev.nullDeref ∉ (window_handle_motion w inp x y sx sy).1.events ∧
    Ev.nullDeref ∉ (window_handle_button hasShell w inp button st).events ∧
    Ev.nullDeref ∉
      (window_handle_key modmap minKeyCode gw se w inp key st).1.events ∧
    Ev.nullDeref ∉ (window_schedule_redraw w).events ∧
    (w.hasRedrawHandler = true → Ev.nullDeref ∉ (idle_redraw w).events) ∧
    (w.hasResizeHandler = true →
       Ev.nullDeref ∉
         (window_set_fullscreen screen child_size_resize_handler w
            st).events) :=
  ⟨no_nullDeref_handle_configure w edges cw ch hw,
   no_nullDeref_set_focus_item w focus hw,
   no_nullDeref_motion w inp x y sx sy hw,
   no_nullDeref_button hasShell w inp button st hw,
   no_nullDeref_key modmap minKeyCode gw se w inp key st hw,
   no_nullDeref_schedule w hw,
   fun hred => no_nullDeref_idle w hred hw,
   fun hres => no_nullDeref_fullscreen screen w st hres hw⟩

/-- A window with the resize and redraw handlers registered. -/
def wHandlers : Window :=
  { wBase with hasResizeHandler := true, hasRedrawHandler := true }

/-- Witness for handlers_optional_amended: on wHandlers, neither a
configure event nor idle_redraw produces a NULL-handler dereference. -/
theorem handlers_optional_amended_witness :
    Ev.nullDeref ∉ wHandlers.events ∧ wHandlers.hasRedrawHandler = true ∧
    Ev.nullDeref ∉ (handle_configure wHandlers 0 300 300).events ∧
    Ev.nullDeref ∉ (idle_redraw wHandlers).events :=
  ⟨by decide, rfl,
   (handlers_optional_amended wHandlers inpBase 0 300 300 0 0 0 0 272 30
      true modmap0 8 groupWidth0 symEntry0 true screen0 none
      (by decide)).1,
   (handlers_optional_amended wHandlers inpBase 0 300 300 0 0 0 0 272 30
      true modmap0 8 groupWidth0 symEntry0 true screen0 none
      (by decide)).2.2.2.2.2.2.1 rfl⟩

/-- A decorated top-level window with a resize handler registered. -/
def wResize : Window := { wBase with hasResizeHandler := true }

/-- Claim C5 counterexample: toggling wResize (allocation (0, 0, 500, 400),
margin 16) fullscreen and back, with the demo resize handler in place,
yields allocation (36, 76, 500, 400): width and height return but x and y
are moved to the decoration origin, so the exact pre-toggle rectangle is
not restored. -/
theorem fullscreen_toggle_counterexample :
    wResize.allocation = ⟨0, 0, 500, 400⟩ ∧
    (window_set_fullscreen screen0 child_size_resize_handler
       (window_set_fullscreen screen0 child_size_resize_handler wResize
          true) false).allocation = ⟨36, 76, 500, 400⟩ ∧
    (window_set_fullscreen screen0 child_size_resize_handler
       (window_set_fullscreen screen0 child_size_resize_handler wResize
          true) false).allocation ≠ wResize.allocation := by
  decide

/-- Claim C5 (amended): for a decorated top-level window whose resize
handler adopts the requested child size, set_fullscreen(1) followed by
set_fullscreen(0) restores the pre-toggle width and height exactly, but
places the allocation origin at the decoration origin
(20 + margin, 60 + margin) rather than at the saved x and y; the resize
handler is invoked exactly once per state change. -/
theorem fullscreen_toggle_restores_size (screen : Rect) (w : Window)
    (ht : w.wtype = WType.toplevel) (hr : w.hasResizeHandler = true) :
    (window_set_fullscreen screen child_size_resize_handler
       (window_set_fullscreen screen child_size_resize_handler w true)
       false).allocation =
      ⟨20 + w.margin, 60 + w.margin,
       w.allocation.width, w.allocation.height⟩ ∧
    (window_set_fullscreen screen child_size_resize_handler w true).events =
      w.events ++ [Ev.resizeCall screen.width screen.height] ∧
    (window_set_fullscreen screen child_size_resize_handler
       (window_set_fullscreen screen child_size_resize_handler w true)
       false).events =
      w.events ++ [Ev.resizeCall screen.width screen.height,
                   Ev.resizeCall (w.allocation.width - 20 - w.margin * 2)
                     (w.allocation.height - 60 - w.margin * 2)] := by
  cases hrs : w.redrawScheduled <;>
    simp [window_set_fullscreen, child_size_resize_handler,
      window_set_child_size, window_schedule_redraw, display_defer, emit,
      ht, hr, hrs, Rect.mk.injEq] <;>
    omega

/-- Witness for fullscreen_toggle_restores_size on wResize. -/
theorem fullscreen_toggle_restores_size_witness :
    wResize.wtype = WType.toplevel ∧ wResize.hasResizeHandler = true ∧
    (window_set_fullscreen screen0 child_size_resize_handler
       (window_set_fullscreen screen0 child_size_resize_handler wResize
          true) false).allocation =
      ⟨20 + wResize.margin, 60 + wResize.margin,
       wResize.allocation.width, wResize.allocation.height⟩ :=
  ⟨rfl, rfl, (fullscreen_toggle_restores_size screen0 wResize rfl rfl).1⟩

/-! Helper lemmas for claim C6: values of the horizontal and vertical
classification chains. -/

theorem hlocation_mem (w : Window) (x : Int) :
    hlocation w x = WINDOW_EXTERIOR ∨ hlocation w x = WINDOW_RESIZING_LEFT ∨
    hlocation w x = WINDOW_INTERIOR ∨ hlocation w x = WINDOW_RESIZING_RIGHT
    := by
  unfold hlocation
  split_ifs <;> simp

theorem vlocation_mem (w : Window) (y : Int) :
    vlocation w y = WINDOW_EXTERIOR ∨ vlocation w y = WINDOW_RESIZING_TOP ∨
    vlocation w y = WINDOW_INTERIOR ∨ vlocation w y = WINDOW_RESIZING_BOTTOM
    := by
  unfold vlocation
  split_ifs <;> simp

theorem hlocation_exterior_low (w : Window) (x : Int) (h : x < w.margin) :
    hlocation w x = WINDOW_EXTERIOR := by
  unfold hlocation
  rw [if_pos h]

theorem hlocation_exterior_high (w : Window) (x : Int) (hm : 0 ≤ w.margin)
    (hwd : w.margin + 8 ≤ w.allocation.width)
    (h : w.allocation.width < x) : hlocation w x = WINDOW_EXTERIOR := by
  unfold hlocation grip_size
  rw [if_neg (by omega), if_neg (by omega), if_neg (by omega),
      if_neg (by omega)]

theorem vlocation_exterior_low (w : Window) (y : Int) (h : y < w.margin) :
    vlocation w y = WINDOW_EXTERIOR := by
  unfold vlocation
  rw [if_pos h]

theorem vlocation_exterior_high (w : Window) (y : Int) (hm : 0 ≤ w.margin)
    (hht : w.margin + 8 ≤ w.allocation.height)
    (h : w.allocation.height < y) : vlocation w y = WINDOW_EXTERIOR := by
  unfold vlocation grip_size
  rw [if_neg (by omega), if_neg (by omega), if_neg (by omega),
      if_neg (by omega)]

theorem get_pointer_location_exterior_h (w : Window) (x y : Int)
    (hdec : w.decoration = true) (h : hlocation w x = WINDOW_EXTERIOR) :
    get_pointer_location w x y = WINDOW_EXTERIOR := by
  unfold get_pointer_location
  rcases vlocation_mem w y with hv | hv | hv | hv <;>
    simp [hdec, h, hv, WINDOW_EXTERIOR, WINDOW_INTERIOR,
      WINDOW_RESIZING_TOP, WINDOW_RESIZING_BOTTOM]

theorem get_pointer_location_exterior_v (w : Window) (x y : Int)
    (hdec : w.decoration = true) (h : vlocation w y = WINDOW_EXTERIOR) :
    get_pointer_location w x y = WINDOW_EXTERIOR := by
  unfold get_pointer_location
  rcases hlocation_mem w x with hh | hh | hh | hh <;>
    simp [hdec, h, hh, WINDOW_EXTERIOR, WINDOW_INTERIOR,
      WINDOW_RESIZING_LEFT, WINDOW_RESIZING_RIGHT]

/-- Claim C6 counterexample: on a freshly created decorated window (margin
16, allocation 500x400), a press at (grip_size / 2, height / 2) = (4, 200)
is classified WINDOW_EXTERIOR, not WINDOW_RESIZING_LEFT: coordinates below
the margin fall outside the decoration frame. -/
theorem pointer_location_grip_counterexample :
    wBase.decoration = true ∧ wBase.margin = 16 ∧
    get_pointer_location wBase 4 200 = WINDOW_EXTERIOR ∧
    WINDOW_EXTERIOR ≠ WINDOW_RESIZING_LEFT := by
  decide

/-- Claim C6 (amended): for a decorated window with margin m and grip
size 8, a press at (m + 8 / 2, y) with y vertically interior yields
WINDOW_RESIZING_LEFT (the left grip starts at the margin, not at x = 0);
an interior press below the title bar yields WINDOW_CLIENT_AREA; and any
press outside [0, width] x [0, height] yields WINDOW_EXTERIOR. -/
theorem get_pointer_location_classification (w : Window)
    (hdec : w.decoration = true) (hm : 0 ≤ w.margin)
    (hwd : w.margin + 8 ≤ w.allocation.width)
    (hht : w.margin + 8 ≤ w.allocation.height) :
    (∀ y : Int, w.margin + 8 ≤ y → y < w.allocation.height - w.margin - 8 →
       get_pointer_location w (w.margin + 4) y = WINDOW_RESIZING_LEFT) ∧
    (∀ x y : Int, w.margin + 8 ≤ x →
       x < w.allocation.width - w.margin - 8 → w.margin + 50 ≤ y →
       y < w.allocation.height - w.margin - 8 →
       get_pointer_location w x y = WINDOW_CLIENT_AREA) ∧
    (∀ x y : Int,
       (x < 0 ∨ w.allocation.width < x ∨ y < 0 ∨ w.allocation.height < y) →
       get_pointer_location w x y = WINDOW_EXTERIOR) := by
  refine ⟨?_, ?_, ?_⟩
  · intro y hy1 hy2
    have hh : hlocation w (w.margin + 4) = WINDOW_RESIZING_LEFT := by
      unfold hlocation grip_size
      rw [if_neg (by omega), if_pos (by omega)]
    have hv : vlocation w y = WINDOW_INTERIOR := by
      unfold vlocation grip_size
      rw [if_neg (by omega), if_neg (by omega), if_pos (by omega)]
    unfold get_pointer_location
    have h1 : (4 : Nat) &&& 16 = 0 := by decide
    simp [hdec, hh, hv, h1, WINDOW_INTERIOR, WINDOW_RESIZING_LEFT,
      WINDOW_EXTERIOR]
  · intro x y hx1 hx2 hy1 hy2
    have hh : hlocation w x = WINDOW_INTERIOR := by
      unfold hlocation grip_size
      rw [if_neg (by omega), if_neg (by omega), if_pos (by omega)]
    have hv : vlocation w y = WINDOW_INTERIOR := by
      unfold vlocation grip_size
      rw [if_neg (by omega), if_neg (by omega), if_pos (by omega)]
    unfold get_pointer_location
    have hy3 : ¬y < w.margin + 50 := by omega
    have h1 : (0 : Nat) &&& 16 = 0 := by decide
    simp [hdec, hh, hv, hy3, h1, WINDOW_INTERIOR, WINDOW_EXTERIOR,
      WINDOW_CLIENT_AREA]
  · intro x y hout
    rcases hout with h | h | h | h
    · exact get_pointer_location_exterior_h w x y hdec
        (hlocation_exterior_low w x (by omega))
    · exact get_pointer_location_exterior_h w x y hdec
        (hlocation_exterior_high w x hm hwd h)
    · exact get_pointer_location_exterior_v w x y hdec
        (vlocation_exterior_low w y (by omega))
    · exact get_pointer_location_exterior_v w x y hdec
        (vlocation_exterior_high w y hm hht h)

/-- Witness for get_pointer_location_classification on wBase: the left
grip is hit at (20, 200), the client area at (250, 200), and (-3, 200) is
exterior. -/
theorem get_pointer_location_classification_witness :
    wBase.decoration = true ∧ (0 : Int) ≤ wBase.margin ∧
    wBase.margin + 8 ≤ wBase.allocation.width ∧
    wBase.margin + 8 ≤ wBase.allocation.height ∧
    get_pointer_location wBase (wBase.margin + 4) 200 =
      WINDOW_RESIZING_LEFT ∧
    get_pointer_location wBase 250 200 = WINDOW_CLIENT_AREA ∧
    get_pointer_location wBase (-3) 200 = WINDOW_EXTERIOR :=
  ⟨rfl, by decide, by decide, by decide,
   (get_pointer_location_classification wBase rfl (by decide) (by decide)
      (by decide)).1 200 (by decide) (by decide),
   (get_pointer_location_classification wBase rfl (by decide) (by decide)
      (by decide)).2.1 250 200 (by decide) (by decide) (by decide)
     (by decide),
   (get_pointer_location_classification wBase rfl (by decide) (by decide)
      (by decide)).2.2 (-3) 200 (Or.inl (by decide))⟩

/-! Helper lemmas for claim C7. -/

theorem window_set_focus_item_focus (v : Window) (f : Option Nat) :
    (window_set_focus_item v f).focusItem = f := by
  simp only [window_set_focus_item, emit]
  split_ifs with h1 h2
  · exact h1.symm
  · rfl
  · rfl

theorem window_set_focus_item_items (v : Window) (f : Option Nat) :
    (window_set_focus_item v f).items = v.items := by
  simp only [window_set_focus_item, emit]
  split_ifs <;> rfl

theorem window_set_focus_item_grab (v : Window) (f : Option Nat) :
    (window_set_focus_item v f).itemGrabButton = v.itemGrabButton := by
  simp only [window_set_focus_item, emit]
  split_ifs <;> rfl

theorem window_set_focus_item_noop (v : Window) (f : Option Nat)
    (h : f = v.focusItem) : window_set_focus_item v f = v := by
  unfold window_set_focus_item
  rw [if_pos h]

theorem window_find_item_congr {v v' : Window} (h : v.items = v'.items)
    (x y : Int) : window_find_item v x y = window_find_item v' x y := by
  unfold window_find_item
  rw [h]

theorem window_handle_motion_fields (w : Window) (inp : Input)
    (x y sx sy : Int) :
    (window_handle_motion w inp x y sx sy).1.items = w.items ∧
    (window_handle_motion w inp x y sx sy).1.itemGrabButton =
      w.itemGrabButton ∧
    ((w.focusItem = none ∨ w.itemGrabButton = 0) →
       (window_handle_motion w inp x y sx sy).1.focusItem =
         (window_find_item w sx sy).map Item.id) ∧
    (¬(w.focusItem = none ∨ w.itemGrabButton = 0) →
       (window_handle_motion w inp x y sx sy).1.focusItem = w.focusItem)
    := by
  simp only [window_handle_motion]
  split_ifs with h1 h2 h3 <;>
    simp_all [emit, window_set_focus_item_items, window_set_focus_item_focus,
      window_set_focus_item_grab]

theorem countItemFocus_emit_motion (v : Window) :
    countItemFocus (emit v Ev.motionCall).events =
      countItemFocus v.events := by
  simp [emit, countItemFocus, List.countP_append]

/-- Claim C7: window_set_focus_item invokes the registered item-focus
handler exactly when the resolved focus item differs from the stored one,
and a repeated motion event (same coordinates, hence the same resolved
item) never re-invokes it. -/
theorem item_focus_fires_once (w : Window) (focus : Option Nat)
    (hH : w.hasItemFocusHandler = true) :
    (focus = w.focusItem → window_set_focus_item w focus = w) ∧
    (focus ≠ w.focusItem →
       (window_set_focus_item w focus).events =
         w.events ++ [Ev.itemFocusCall focus] ∧
       (window_set_focus_item w focus).focusItem = focus) ∧
    (∀ (inp : Input) (x y sx sy : Int),
       countItemFocus
           (window_handle_motion (window_handle_motion w inp x y sx sy).1
              (window_handle_motion w inp x y sx sy).2 x y sx sy).1.events =
         countItemFocus (window_handle_motion w inp x y sx sy).1.events)
    := by
  refine ⟨fun h => window_set_focus_item_noop w focus h, fun h => ?_, ?_⟩
  · constructor
    · unfold window_set_focus_item
      rw [if_neg h]
      simp [hH, emit]
    · exact window_set_focus_item_focus w focus
  · intro inp x y sx sy
    obtain ⟨hit, hgr, hfoc1, hfoc2⟩ :=
      window_handle_motion_fields w inp x y sx sy
    have hfind : window_find_item
        (window_handle_motion w inp x y sx sy).1 sx sy =
        window_find_item w sx sy :=
      window_find_item_congr hit sx sy
    by_cases hc : (window_handle_motion w inp x y sx sy).1.focusItem =
        none ∨ (window_handle_motion w inp x y sx sy).1.itemGrabButton = 0
    · have hc0 : w.focusItem = none ∨ w.itemGrabButton = 0 := by
        by_cases hc0 : w.focusItem = none ∨ w.itemGrabButton = 0
        · exact hc0
        · rw [hfoc2 hc0, hgr] at hc
          exact absurd hc hc0
      have hnoop : window_set_focus_item
          (window_handle_motion w inp x y sx sy).1
          ((window_find_item (window_handle_motion w inp x y sx sy).1 sx
              sy).map Item.id) =
          (window_handle_motion w inp x y sx sy).1 := by
        apply window_set_focus_item_noop
        rw [hfind, hfoc1 hc0]
      conv_lhs => rw [window_handle_motion]
      rw [if_pos hc, hnoop]
      by_cases hmh : (window_handle_motion w inp x y sx sy).1.hasMotionHandler
      · simp only [hmh, if_true]
        exact countItemFocus_emit_motion _
      · simp [hmh]
    · conv_lhs => rw [window_handle_motion]
      rw [if_neg hc]
      by_cases hmh : (window_handle_motion w inp x y sx sy).1.hasMotionHandler
      · simp only [hmh, if_true]
        exact countItemFocus_emit_motion _
      · simp [hmh]

/-- A window with one 50x50 item at the origin and an item-focus handler
registered. -/
def wItems : Window :=
  { wBase with hasItemFocusHandler := true,
               items := [⟨1, ⟨0, 0, 50, 50⟩⟩] }

/-- Witness for item_focus_fires_once: focusing item 1 on wItems fires the
handler once. -/
theorem item_focus_fires_once_witness :
    wItems.hasItemFocusHandler = true ∧ some 1 ≠ wItems.focusItem ∧
    (window_set_focus_item wItems (some 1)).events =
      wItems.events ++ [Ev.itemFocusCall (some 1)] :=
  ⟨rfl, by decide,
   ((item_focus_fires_once wItems (some 1) rfl).2.1 (by decide)).1⟩

/-! Helper lemma for claim C8: OR-ing a fresh bit pattern into a 32-bit
mask and AND-ing its 32-bit complement back out restores the mask. -/

theorem lor_land_compl32 (m b : Nat) (hm : m < 2 ^ 32) (hb : b < 2 ^ 32)
    (h : m &&& b = 0) : (m ||| b) &&& (2 ^ 32 - 1 ^^^ b) = m := by
  apply Nat.eq_of_testBit_eq
  intro i
  have hline := congrArg (fun t => t.testBit i) h
  simp only [Nat.testBit_land, Nat.zero_testBit] at hline
  rw [Nat.testBit_land, Nat.testBit_lor, Nat.testBit_xor,
      Nat.testBit_two_pow_sub_one]
  by_cases hi : i < 32
  · cases hbi : b.testBit i
    · cases hmi : m.testBit i <;> simp [hbi, hmi, hi]
    · have hmi : m.testBit i = false := by
        rcases hm2 : m.testBit i with _ | _
        · rfl
        · rw [hm2, hbi] at hline
          exact absurd hline (by simp)
      simp [hbi, hmi, hi]
  · have hile : 2 ^ 32 ≤ 2 ^ i :=
      Nat.pow_le_pow_right (by norm_num) (le_of_not_lt hi)
    have hmi : m.testBit i = false :=
      Nat.testBit_lt_two_pow (lt_of_lt_of_le hm hile)
    have hbi : b.testBit i = false :=
      Nat.testBit_lt_two_pow (lt_of_lt_of_le hb hile)
    simp [hmi, hbi, hi]

/-- A window whose keyboard device is the modelled input. -/
def wKbd : Window := { wBase with keyboardDeviceIsInput := true }

/-- An input device that already holds modifier bit 0 (e.g. the other
Shift key is down). -/
def inpShift : Input := { inpBase with modifiers := 1 }

/-- Claim C8 counterexample: with modifier bit 0 already held (modifiers =
1) and a keymap mapping the pressed key to that same bit, pressing and
then releasing the key leaves the mask at 0, not at its prior value 1:
the release clears the bit even though it was set before the press. -/
theorem modifier_roundtrip_counterexample :
    inpShift.modifiers = 1 ∧
    (window_handle_key modmap1 8 groupWidth0 symEntry0
        (window_handle_key modmap1 8 groupWidth0 symEntry0 wKbd inpShift
           42 true).1
        (window_handle_key modmap1 8 groupWidth0 symEntry0 wKbd inpShift
           42 true).2 42 false).2.modifiers = 0 ∧
    (0 : Nat) ≠ 1 := by
  refine ⟨rfl, ?_, by decide⟩
  decide

/-- Claim C8 (amended): pressing and then releasing the same modifier key
(no intervening modifier events) restores the device's modifier mask to
its prior value provided none of that key's modifier bits were already set
in the mask before the press; the press ORs the key's modifier bits in and
the release ANDs their 32-bit complement back out. -/
theorem modifier_mask_roundtrip (modmap : Nat → Nat) (minKeyCode : Nat)
    (gw : Nat → Bool) (se : Nat → Nat → Nat) (w : Window) (inp : Input)
    (key : Nat) (hk : w.keyboardDeviceIsInput = true)
    (hm : inp.modifiers < 2 ^ 32) (hb : modmap (key + minKeyCode) < 2 ^ 32)
    (hfree : inp.modifiers &&& modmap (key + minKeyCode) = 0) :
    (window_handle_key modmap minKeyCode gw se w inp key
        true).2.modifiers =
      inp.modifiers ||| modmap (key + minKeyCode) ∧
    (window_handle_key modmap minKeyCode gw se
        (window_handle_key modmap minKeyCode gw se w inp key true).1
        (window_handle_key modmap minKeyCode gw se w inp key true).2
        key false).2.modifiers = inp.modifiers := by
  have hk1 : (window_handle_key modmap minKeyCode gw se w inp key
      true).1.keyboardDeviceIsInput = true := by
    simp only [window_handle_key, hk]
    split_ifs <;> simp_all [emit]
  have hpress : (window_handle_key modmap minKeyCode gw se w inp key
      true).2.modifiers = inp.modifiers ||| modmap (key + minKeyCode) := by
    simp only [window_handle_key, hk]
    split_ifs <;> simp_all [emit]
  refine ⟨hpress, ?_⟩
  have hfinal : (inp.modifiers ||| modmap (key + minKeyCode)) &&&
      (2 ^ 32 - 1 ^^^ modmap (key + minKeyCode)) = inp.modifiers :=
    lor_land_compl32 _ _ hm hb hfree
  conv_lhs => rw [window_handle_key]
  simp only [hk1]
  split_ifs <;> simp_all [emit]

/-- Witness for modifier_mask_roundtrip: an empty mask round-trips through
press and release of key 42. -/
theorem modifier_mask_roundtrip_witness :
    wKbd.keyboardDeviceIsInput = true ∧
    inpBase.modifiers &&& modmap1 (42 + 8) = 0 ∧
    (window_handle_key modmap1 8 groupWidth0 symEntry0
        (window_handle_key modmap1 8 groupWidth0 symEntry0 wKbd inpBase
           42 true).1
        (window_handle_key modmap1 8 groupWidth0 symEntry0 wKbd inpBase
           42 true).2 42 false).2.modifiers = inpBase.modifiers :=
  ⟨rfl, by decide,
   (modifier_mask_roundtrip modmap1 8 groupWidth0 symEntry0 wKbd inpBase
      42 rfl (by decide) (by decide) (by decide)).2⟩

end WestonClients
